import Mathlib

/-!
Verification of the `jetson_clocks` power-management library.

The repository contains two near-duplicate implementations of the same
operations:
* an exception-throwing ("signal") variant, embedded below in namespace `JC`;
* a boolean-returning ("best-effort") variant from `jetson_clocks.hpp`,
  embedded in namespace `JCB`.

The embedding models the virtual filesystem as a `World`: a partial map from
path to content, a predicate telling whether `fopen(path, "w")` succeeds, a
partial map from path to directory entries, and the effective user id.
Every operation is a pure function of a `World`; mutating operations in
addition return the list of file writes they performed, in order.
Exceptions are modelled by `Except JCErr`, with one error tag per error
category of the library.
-/

namespace JetsonClocks

/-- C `isspace` in the default locale: space, tab, newline, vertical tab,
form feed, carriage return. -/
def isSpaceC (c : Char) : Bool :=
  c = ' ' || c = '\t' || c = '\n' || c = '\x0b' || c = '\x0c' || c = '\r'

/-- Drop leading whitespace characters. -/
def skipWs : List Char → List Char
  | [] => []
  | c :: cs => if isSpaceC c then skipWs cs else c :: cs

/-- Consume a run of decimal digits, accumulating their value. -/
def digitRun (acc : Nat) : List Char → Nat × List Char
  | [] => (acc, [])
  | c :: cs =>
    if c.isDigit then digitRun (10 * acc + (c.toNat - 48)) cs else (acc, c :: cs)

/-- Parse an optional sign followed by a nonempty digit run, as C++ numeric
stream extraction and `std::stoi` do after whitespace skipping.  Returns the
value and the unconsumed rest, or `none` if no digits are found. -/
def parseIntFrom : List Char → Option (Int × List Char)
  | [] => none
  | c :: cs =>
    if c = '+' then
      match cs with
      | [] => none
      | d :: ds =>
        if d.isDigit then
          let p := digitRun 0 (d :: ds)
          some ((p.1 : Int), p.2)
        else none
    else if c = '-' then
      match cs with
      | [] => none
      | d :: ds =>
        if d.isDigit then
          let p := digitRun 0 (d :: ds)
          some (-(p.1 : Int), p.2)
        else none
    else if c.isDigit then
      let p := digitRun 0 (c :: cs)
      some ((p.1 : Int), p.2)
    else none

/-- `std::stoi`: skip leading whitespace, then parse an optional sign and a
nonempty digit run; `none` models the thrown `std::invalid_argument`. -/
def stoi (s : String) : Option Int :=
  (parseIntFrom (skipWs s.data)).map (fun p => p.1)

/-- Fuelled loop for repeated `iss >> s` extraction of `long int` values. -/
def extractLoop : Nat → List Char → List Int
  | 0, _ => []
  | fuel + 1, cs =>
    match parseIntFrom (skipWs cs) with
    | none => []
    | some (v, rest) => v :: extractLoop fuel rest

/-- The `while (iss >> s) speeds.push_back(s);` loop: extract whitespace
separated integers until the first extraction failure. -/
def extractLongs (s : String) : List Int :=
  extractLoop (s.data.length + 1) s.data

/-- Consume a maximal run of non-whitespace characters. -/
def tokenRun : List Char → List Char × List Char
  | [] => ([], [])
  | c :: cs =>
    if isSpaceC c then ([], c :: cs)
    else
      let p := tokenRun cs
      (c :: p.1, p.2)

/-- Fuelled loop for `std::istream_iterator<std::string>` extraction. -/
def tokensLoop : Nat → List Char → List String
  | 0, _ => []
  | fuel + 1, cs =>
    match skipWs cs with
    | [] => []
    | c :: cs2 =>
      let p := tokenRun (c :: cs2)
      p.1.asString :: tokensLoop fuel p.2

/-- Split a string into its whitespace-separated tokens. -/
def splitTokens (s : String) : List String :=
  tokensLoop (s.data.length + 1) s.data

/-- `strip_newline`: erase every newline character from the string. -/
def strip_newline (s : String) : String :=
  (s.data.filter (fun c => c != '\n')).asString

/-- Whether the pattern is an initial segment of the text. -/
def leadMatch : List Char → List Char → Bool
  | [], _ => true
  | _ :: _, [] => false
  | p :: ps, c :: cs => p == c && leadMatch ps cs

/-- `std::string::find(pat) != npos`: the pattern occurs somewhere in the
text. -/
def containsSub (pat : List Char) : List Char → Bool
  | [] => leadMatch pat []
  | c :: cs => leadMatch pat (c :: cs) || containsSub pat cs

/-- The kind of a directory entry, as seen by `readdir` plus `fstatat`. -/
inductive EntKind where
  | dir
  | regular
  | symlinkToDir
  | symlinkToOther
  | statFail
deriving DecidableEq

/-- One entry of a directory listing, in `readdir` order. -/
structure DirEntry where
  name : String
  kind : EntKind
deriving DecidableEq

/-- `fstatat(dirfd, name, &st, 0)` follows symbolic links, so a symlink whose
target is a directory stats as a directory.  `none` models a failing
`fstatat` call. -/
def statIsDir : EntKind → Option Bool
  | .dir => some true
  | .regular => some false
  | .symlinkToDir => some true
  | .symlinkToOther => some false
  | .statFail => none

/-- The ambient state an operation observes: effective user id, file
contents, write-openability of paths, and directory listings. -/
structure World where
  euid : Nat
  file : String → Option String
  fopenW : String → Bool
  dirents : String → Option (List DirEntry)

/-- Error categories of the library, one per throw-site family. -/
inductive JCErr where
  | privilegeDenied
  | unsupportedPlatform
  | resourceUnavailable
  | valueNotAvailable
  | parseFailure
deriving DecidableEq

/-- The file writes an operation performed, in order: (path, written text). -/
abbrev Writes := List (String × String)

/-- `running_as_root`: `geteuid() == 0`. -/
def running_as_root (w : World) : Bool := w.euid == 0

/-- `file_exists`: opening the file for reading succeeds. -/
def file_exists (w : World) (name : String) : Bool := (w.file name).isSome

/-- `file_writable`: the file exists and `fopen(name, "w")` succeeds. -/
def file_writable (w : World) (name : String) : Bool :=
  file_exists w name && w.fopenW name

/-- `read_file`: whole-file slurp; an unreadable file yields the empty
string. -/
def read_file (w : World) (name : String) : String := (w.file name).getD ""

/-- `write_file`: returns false and writes nothing unless `file_writable`;
otherwise writes the string and returns true. -/
def write_file (w : World) (name str : String) : Bool × Writes :=
  if file_writable w name then (true, [(name, str)]) else (false, [])

/-- The `readdir` loop of `list_subdirs`: skip `.` and `..`, skip entries
whose `fstatat` fails, keep entries whose (symlink-following) stat mode is a
directory. -/
def subdirsLoop : List DirEntry → List String
  | [] => []
  | e :: rest =>
    if e.name == "." || e.name == ".." then subdirsLoop rest
    else
      match statIsDir e.kind with
      | none => subdirsLoop rest
      | some b => if b then e.name :: subdirsLoop rest else subdirsLoop rest

/-- `list_subdirs`: empty result when `opendir` fails, otherwise the
filtered `readdir` sequence.  Both variants of the source are identical. -/
def list_subdirs (w : World) (path : String) : List String :=
  match w.dirents path with
  | none => []
  | some es => subdirsLoop es

/-- Path of the per-cpu cpufreq control file with the given leaf name. -/
def cpuPath (cpu_id : Int) (leaf : String) : String :=
  "/sys/devices/system/cpu/cpu" ++ toString cpu_id ++ "/cpufreq/" ++ leaf

namespace JC

/-- Exception-throwing variant of `get_soc_family`: prefer the primary
identification file (returned verbatim), else pattern-match the device-tree
compatible string, else throw. -/
def get_soc_family (w : World) : Except JCErr String :=
  if file_exists w "/sys/devices/soc0/family" then
    .ok (read_file w "/sys/devices/soc0/family")
  else if file_exists w "/proc/device-tree/compatible" then
    let compat := read_file w "/proc/device-tree/compatible"
    if containsSub "nvidia,tegra210".data compat.data then .ok "tegra210"
    else if containsSub "nvidia,tegra186".data compat.data then .ok "tegra186"
    else if containsSub "nvidia,tegra194".data compat.data then .ok "tegra194"
    else .ok ""
  else .error .unsupportedPlatform

/-- Exception-throwing variant of `get_machine`. -/
def get_machine (w : World) : Except JCErr String :=
  if file_exists w "/sys/devices/soc0/family" then
    .ok (if file_exists w "/sys/devices/soc0/machine" then
          read_file w "/sys/devices/soc0/machine"
         else "")
  else if file_exists w "/proc/device-tree/model" then
    .ok (read_file w "/proc/device-tree/model")
  else .error .resourceUnavailable

/-- Exception-throwing `set_fan_speed`. -/
def set_fan_speed (w : World) (speed : Nat) : Except JCErr Unit × Writes :=
  if running_as_root w then
    match get_machine w with
    | .error e => (.error e, [])
    | .ok m =>
      if m == "jetson-tk1" then (.ok (), [])
      else if file_writable w "/sys/kernel/debug/tegra_fan/target_pwm" then
        (.ok (), (write_file w "/sys/kernel/debug/tegra_fan/target_pwm" (toString speed)).2)
      else if file_writable w "/sys/devices/pwm-fan/target_pwm" then
        (.ok (), (write_file w "/sys/devices/pwm-fan/target_pwm" (toString speed)).2)
      else (.error .resourceUnavailable, [])
  else (.error .privilegeDenied, [])

/-- Exception-throwing `get_fan_speed`; the `std::stoi` result is converted
to `unsigned char`, i.e. reduced modulo 256. -/
def get_fan_speed (w : World) : Except JCErr Nat :=
  if running_as_root w then
    match get_machine w with
    | .error e => .error e
    | .ok m =>
      if m == "jetson-tk1" then .ok 255
      else if file_writable w "/sys/kernel/debug/tegra_fan/target_pwm" then
        match stoi (read_file w "/sys/kernel/debug/tegra_fan/target_pwm") with
        | none => .error .parseFailure
        | some v => .ok ((v % 256).toNat)
      else if file_writable w "/sys/devices/pwm-fan/target_pwm" then
        match stoi (read_file w "/sys/devices/pwm-fan/target_pwm") with
        | none => .error .parseFailure
        | some v => .ok ((v % 256).toNat)
      else .error .resourceUnavailable
  else .error .privilegeDenied

/-- Family dispatch of `get_gpu_available_freqs`: the `GPU_AVAILABLE_FREQS`
path, or `none` for the throwing else-branch. -/
def GPU_AVAIL_FREQS_PATH (fam : String) : Option String :=
  if fam = "tegra186" then
    some "/sys/devices/17000000.gp10b/devfreq/17000000.gp10b/available_frequencies"
  else if fam = "tegra210" then
    some "/sys/devices/57000000.gpu/devfreq/57000000.gpu/available_frequencies"
  else if fam = "tegra194" then
    some "/sys/devices/17000000.gv11b/devfreq/17000000.gv11b/available_frequencies"
  else none

/-- Exception-throwing `get_gpu_available_freqs`: parse the whitespace
separated integers of the family file and sort ascending. -/
def get_gpu_available_freqs (w : World) : Except JCErr (List Int) :=
  if running_as_root w then
    match get_soc_family w with
    | .error e => .error e
    | .ok fam =>
      match GPU_AVAIL_FREQS_PATH fam with
      | none => .error .unsupportedPlatform
      | some p => .ok (List.insertionSort (· ≤ ·) (extractLongs (read_file w p)))
  else .error .privilegeDenied

/-- Family dispatch of `set_gpu_freq_range`: the `(GPU_MIN_FREQ,
GPU_MAX_FREQ, GPU_RAIL_GATE)` paths, or `none` for the throwing
else-branch. -/
def GPU_RANGE_PATHS (fam : String) : Option (String × String × String) :=
  if fam = "tegra186" then
    some ("/sys/devices/17000000.gp10b/devfreq/17000000.gp10b/min_freq",
          "/sys/devices/17000000.gp10b/devfreq/17000000.gp10b/max_freq",
          "/sys/devices/17000000.gp10b/devfreq/17000000.gp10b/device/railgate_enable")
  else if fam = "tegra210" then
    some ("/sys/devices/57000000.gpu/devfreq/57000000.gpu/min_freq",
          "/sys/devices/57000000.gpu/devfreq/57000000.gpu/max_freq",
          "/sys/devices/57000000.gpu/devfreq/57000000.gpu/device/railgate_enable")
  else if fam = "tegra194" then
    some ("/sys/devices/17000000.gv11b/devfreq/17000000.gv11b/min_freq",
          "/sys/devices/17000000.gv11b/devfreq/17000000.gv11b/max_freq",
          "/sys/devices/17000000.gv11b/devfreq/17000000.gv11b/device/railgate_enable")
  else none

/-- Exception-throwing `set_gpu_freq_range`. -/
def set_gpu_freq_range (w : World) (min_freq max_freq : Int) :
    Except JCErr Unit × Writes :=
  if running_as_root w then
    match get_gpu_available_freqs w with
    | .error e => (.error e, [])
    | .ok avail =>
      if !avail.contains min_freq then (.error .valueNotAvailable, [])
      else if !avail.contains max_freq then (.error .valueNotAvailable, [])
      else
        match get_soc_family w with
        | .error e => (.error e, [])
        | .ok fam =>
          match GPU_RANGE_PATHS fam with
          | none => (.error .unsupportedPlatform, [])
          | some (pmin, pmax, prail) =>
            (.ok (), (write_file w pmin (toString min_freq)).2 ++
                     (write_file w pmax (toString max_freq)).2 ++
                     (write_file w prail "0").2)
  else (.error .privilegeDenied, [])

/-- Family dispatch of `get_gpu_cur_freq`: note the unresolved (empty)
`TODO` paths for tegra186 and tegra210 in the source. -/
def GPU_CUR_FREQ_PATH (fam : String) : Option String :=
  if fam = "tegra186" then some ""
  else if fam = "tegra210" then some ""
  else if fam = "tegra194" then
    some "/sys/devices/17000000.gv11b/devfreq/17000000.gv11b/cur_freq"
  else none

/-- Family dispatch of `get_gpu_min_freq` (empty paths for tegra186 and
tegra210). -/
def GPU_MIN_FREQ_PATH (fam : String) : Option String :=
  if fam = "tegra186" then some ""
  else if fam = "tegra210" then some ""
  else if fam = "tegra194" then
    some "/sys/devices/17000000.gv11b/devfreq/17000000.gv11b/min_freq"
  else none

/-- Family dispatch of `get_gpu_max_freq` (empty paths for tegra186 and
tegra210). -/
def GPU_MAX_FREQ_PATH (fam : String) : Option String :=
  if fam = "tegra186" then some ""
  else if fam = "tegra210" then some ""
  else if fam = "tegra194" then
    some "/sys/devices/17000000.gv11b/devfreq/17000000.gv11b/max_freq"
  else none

/-- The shared tail of the three simple GPU frequency getters: existence
check, read, `std::stoi`. -/
def readFreqAt (w : World) (p : Option String) : Except JCErr Int :=
  match p with
  | none => .error .unsupportedPlatform
  | some path =>
    if file_exists w path then
      match stoi (read_file w path) with
      | none => .error .parseFailure
      | some v => .ok v
    else .error .resourceUnavailable

/-- Exception-throwing `get_gpu_cur_freq`. -/
def get_gpu_cur_freq (w : World) : Except JCErr Int :=
  if running_as_root w then
    match get_soc_family w with
    | .error e => .error e
    | .ok fam => readFreqAt w (GPU_CUR_FREQ_PATH fam)
  else .error .privilegeDenied

/-- Exception-throwing `get_gpu_min_freq`. -/
def get_gpu_min_freq (w : World) : Except JCErr Int :=
  if running_as_root w then
    match get_soc_family w with
    | .error e => .error e
    | .ok fam => readFreqAt w (GPU_MIN_FREQ_PATH fam)
  else .error .privilegeDenied

/-- Exception-throwing `get_gpu_max_freq`. -/
def get_gpu_max_freq (w : World) : Except JCErr Int :=
  if running_as_root w then
    match get_soc_family w with
    | .error e => .error e
    | .ok fam => readFreqAt w (GPU_MAX_FREQ_PATH fam)
  else .error .privilegeDenied

/-- `get_gpu_current_usage`: the one operation with no root check. -/
def get_gpu_current_usage (w : World) : Except JCErr Int :=
  match get_soc_family w with
  | .error e => .error e
  | .ok fam =>
    if fam = "tegra210" then
      match stoi (read_file w "/sys/devices/gpu.0/load") with
      | none => .error .parseFailure
      | some v => .ok v
    else .error .unsupportedPlatform

/-- Family dispatch of `get_emc_available_freqs`: iso-cap override file (if
the family has one), min-rate file, max-rate file. -/
def EMC_AVAIL_PATHS (fam : String) : Option (Option String × String × String) :=
  if fam = "tegra186" || fam = "tegra194" then
    some (some "/sys/kernel/nvpmodel_emc_cap/emc_iso_cap",
          "/sys/kernel/debug/bpmp/debug/clk/emc/min_rate",
          "/sys/kernel/debug/bpmp/debug/clk/emc/max_rate")
  else if fam = "tegra210" then
    some (none,
          "/sys/kernel/debug/tegra_bwmgr/emc_min_rate",
          "/sys/kernel/debug/tegra_bwmgr/emc_max_rate")
  else none

/-- Exception-throwing `get_emc_available_freqs`: on tegra186/tegra194 the
iso-cap file overrides the nominal max-rate descriptor when its value is
positive and below the nominal maximum. -/
def get_emc_available_freqs (w : World) : Except JCErr (List Int) :=
  if running_as_root w then
    match get_soc_family w with
    | .error e => .error e
    | .ok fam =>
      match EMC_AVAIL_PATHS fam with
      | none => .error .unsupportedPlatform
      | some (isoOpt, minP, maxP0) =>
        match isoOpt with
        | some isoCap =>
          match stoi (read_file w isoCap) with
          | none => .error .parseFailure
          | some cap =>
            match stoi (read_file w maxP0) with
            | none => .error .parseFailure
            | some fmax =>
              let maxP := if cap > 0 && cap < fmax then isoCap else maxP0
              match stoi (read_file w minP), stoi (read_file w maxP) with
              | some mn, some mx => .ok [mn, mx]
              | _, _ => .error .parseFailure
        | none =>
          match stoi (read_file w minP), stoi (read_file w maxP0) with
          | some mn, some mx => .ok [mn, mx]
          | _, _ => .error .parseFailure
  else .error .privilegeDenied

/-- Family dispatch of `get_emc_freq`: `(EMC_UPDATE_FREQ,
EMC_FREQ_OVERRIDE)`.  The source tests the misspelt family string
`"tagra194"` here, so `"tegra194"` falls into the throwing else-branch. -/
def EMC_FREQ_PATHS (fam : String) : Option (String × String) :=
  if fam = "tegra186" || fam = "tagra194" then
    some ("/sys/kernel/debug/bpmp/debug/clk/emc/rate",
          "/sys/kernel/debug/bpmp/debug/clk/emc/mrq_rate_locked")
  else if fam = "tegra210" then
    some ("/sys/kernel/debug/clk/override.emc/clk_update_rate",
          "/sys/kernel/debug/clk/override.emc/clk_state")
  else none

/-- Exception-throwing `get_emc_freq`. -/
def get_emc_freq (w : World) : Except JCErr Int :=
  if running_as_root w then
    match get_soc_family w with
    | .error e => .error e
    | .ok fam =>
      match EMC_FREQ_PATHS fam with
      | none => .error .unsupportedPlatform
      | some (updateP, _) =>
        match stoi (read_file w updateP) with
        | none => .error .parseFailure
        | some v => .ok v
  else .error .privilegeDenied

/-- Family dispatch of `set_emc_freq` (spelt correctly here). -/
def SET_EMC_PATHS (fam : String) : Option (String × String) :=
  if fam = "tegra186" || fam = "tegra194" then
    some ("/sys/kernel/debug/bpmp/debug/clk/emc/rate",
          "/sys/kernel/debug/bpmp/debug/clk/emc/mrq_rate_locked")
  else if fam = "tegra210" then
    some ("/sys/kernel/debug/clk/override.emc/clk_update_rate",
          "/sys/kernel/debug/clk/override.emc/clk_state")
  else none

/-- Exception-throwing `set_emc_freq`: range check against the ends of the
vector returned by `get_emc_available_freqs`, then two writes. -/
def set_emc_freq (w : World) (freq : Int) : Except JCErr Unit × Writes :=
  if running_as_root w then
    match get_emc_available_freqs w with
    | .error e => (.error e, [])
    | .ok emc_freqs =>
      let min_freq := emc_freqs.getD 0 0
      let max_freq := emc_freqs.getD (emc_freqs.length - 1) 0
      if freq < min_freq || freq > max_freq then (.error .valueNotAvailable, [])
      else
        match get_soc_family w with
        | .error e => (.error e, [])
        | .ok fam =>
          match SET_EMC_PATHS fam with
          | none => (.error .unsupportedPlatform, [])
          | some (updateP, overrideP) =>
            (.ok (), (write_file w updateP (toString freq)).2 ++
                     (write_file w overrideP "1").2)
  else (.error .privilegeDenied, [])

/-- Full match of the regex `(.*)cpu[0-9]`: the name ends in `cpu` followed
by one decimal digit. -/
def matchesCpuDir (s : String) : Bool :=
  match s.data.reverse with
  | d :: 'u' :: 'p' :: 'c' :: _ => d.isDigit
  | _ => false

/-- Exception-throwing `get_cpu_ids`: filter the subdirectory names by the
regex, take the last character minus `'0'`, sort ascending. -/
def get_cpu_ids (w : World) : Except JCErr (List Int) :=
  if running_as_root w then
    let cpu_subdirs :=
      (list_subdirs w "/sys/devices/system/cpu/").filter matchesCpuDir
    .ok (List.insertionSort (· ≤ ·)
      (cpu_subdirs.map (fun d => ((d.data.getLastD '0').toNat : Int) - 48)))
  else .error .privilegeDenied

/-- Exception-throwing `get_cpu_available_freqs`. -/
def get_cpu_available_freqs (w : World) (cpu_id : Int) : Except JCErr (List Int) :=
  if running_as_root w then
    let path := cpuPath cpu_id "scaling_available_frequencies"
    if file_exists w path then
      .ok (List.insertionSort (· ≤ ·) (extractLongs (read_file w path)))
    else .error .resourceUnavailable
  else .error .privilegeDenied

/-- Exception-throwing `get_cpu_available_governors`: strip newlines, then
split into whitespace-separated tokens. -/
def get_cpu_available_governors (w : World) (cpu_id : Int) :
    Except JCErr (List String) :=
  if running_as_root w then
    let path := cpuPath cpu_id "scaling_available_governors"
    if file_exists w path then
      .ok (splitTokens (strip_newline (read_file w path)))
    else .error .resourceUnavailable
  else .error .privilegeDenied

/-- Exception-throwing `get_cpu_governor`. -/
def get_cpu_governor (w : World) (cpu_id : Int) : Except JCErr String :=
  if running_as_root w then
    let path := cpuPath cpu_id "scaling_governor"
    if file_exists w path then .ok (strip_newline (read_file w path))
    else .error .resourceUnavailable
  else .error .privilegeDenied

/-- Shared tail of the three numeric per-cpu getters. -/
def readCpuFreq (w : World) (cpu_id : Int) (leaf : String) : Except JCErr Int :=
  if running_as_root w then
    let path := cpuPath cpu_id leaf
    if file_exists w path then
      match stoi (read_file w path) with
      | none => .error .parseFailure
      | some v => .ok v
    else .error .resourceUnavailable
  else .error .privilegeDenied

/-- Exception-throwing `get_cpu_min_freq`. -/
def get_cpu_min_freq (w : World) (cpu_id : Int) : Except JCErr Int :=
  readCpuFreq w cpu_id "scaling_min_freq"

/-- Exception-throwing `get_cpu_max_freq`. -/
def get_cpu_max_freq (w : World) (cpu_id : Int) : Except JCErr Int :=
  readCpuFreq w cpu_id "scaling_max_freq"

/-- Exception-throwing `get_cpu_cur_freq`. -/
def get_cpu_cur_freq (w : World) (cpu_id : Int) : Except JCErr Int :=
  readCpuFreq w cpu_id "scaling_cur_freq"

/-- The unconditional side-effect writes of the cpu setters: disable the QoS
module and, on tegra186 only, the two cluster-idle enable files.  The family
probe can itself throw, after the QoS write already happened. -/
def cpuSetterSideWrites (w : World) : Except JCErr Writes :=
  let e1 := (write_file w "/sys/module/qos/parameters/enable" "0").2
  match get_soc_family w with
  | .error e => .error e
  | .ok fam =>
    if fam = "tegra186" then
      .ok (e1 ++ (write_file w "/sys/kernel/debug/tegra_cpufreq/M_CLUSTER/cc3/enable" "0").2
              ++ (write_file w "/sys/kernel/debug/tegra_cpufreq/B_CLUSTER/cc3/enable" "0").2)
    else .ok e1

/-- Exception-throwing `set_cpu_min_freq`. -/
def set_cpu_min_freq (w : World) (cpu_id : Int) (min_freq : Int) :
    Except JCErr Unit × Writes :=
  if running_as_root w then
    let path := cpuPath cpu_id "scaling_min_freq"
    if file_writable w path then
      match get_cpu_available_freqs w cpu_id with
      | .error e => (.error e, [])
      | .ok freqs =>
        if !freqs.contains min_freq then (.error .valueNotAvailable, [])
        else
          match cpuSetterSideWrites w with
          | .error e => (.error e, (write_file w "/sys/module/qos/parameters/enable" "0").2)
          | .ok side => (.ok (), side ++ (write_file w path (toString min_freq)).2)
    else (.error .resourceUnavailable, [])
  else (.error .privilegeDenied, [])

/-- Exception-throwing `set_cpu_max_freq`. -/
def set_cpu_max_freq (w : World) (cpu_id : Int) (max_freq : Int) :
    Except JCErr Unit × Writes :=
  if running_as_root w then
    let path := cpuPath cpu_id "scaling_max_freq"
    if file_writable w path then
      match get_cpu_available_freqs w cpu_id with
      | .error e => (.error e, [])
      | .ok freqs =>
        if !freqs.contains max_freq then (.error .valueNotAvailable, [])
        else
          match cpuSetterSideWrites w with
          | .error e => (.error e, (write_file w "/sys/module/qos/parameters/enable" "0").2)
          | .ok side => (.ok (), side ++ (write_file w path (toString max_freq)).2)
    else (.error .resourceUnavailable, [])
  else (.error .privilegeDenied, [])

/-- Exception-throwing `set_cpu_governor` (existence, not writability, is
checked for the governor file). -/
def set_cpu_governor (w : World) (cpu_id : Int) (governor : String) :
    Except JCErr Unit × Writes :=
  if running_as_root w then
    let path := cpuPath cpu_id "scaling_governor"
    if file_exists w path then
      match get_cpu_available_governors w cpu_id with
      | .error e => (.error e, [])
      | .ok govs =>
        if !govs.contains governor then (.error .valueNotAvailable, [])
        else
          match cpuSetterSideWrites w with
          | .error e => (.error e, (write_file w "/sys/module/qos/parameters/enable" "0").2)
          | .ok side => (.ok (), side ++ (write_file w path governor).2)
    else (.error .resourceUnavailable, [])
  else (.error .privilegeDenied, [])

end JC

namespace JCB

/-- Best-effort `get_soc_family` from `jetson_clocks.hpp`: it never fails,
and its fallback matches only `nvidia,tegra210` and `nvidia,tegra186`. -/
def get_soc_family (w : World) : String :=
  if file_exists w "/sys/devices/soc0/family" then
    read_file w "/sys/devices/soc0/family"
  else if file_exists w "/proc/device-tree/compatible" then
    let compat := read_file w "/proc/device-tree/compatible"
    if containsSub "nvidia,tegra210".data compat.data then "tegra210"
    else if containsSub "nvidia,tegra186".data compat.data then "tegra186"
    else ""
  else ""

/-- Best-effort `get_machine`: never fails. -/
def get_machine (w : World) : String :=
  if file_exists w "/sys/devices/soc0/family" then
    (if file_exists w "/sys/devices/soc0/machine" then
      read_file w "/sys/devices/soc0/machine"
     else "")
  else if file_exists w "/proc/device-tree/model" then
    read_file w "/proc/device-tree/model"
  else ""

/-- Best-effort `set_fan_speed`: boolean result, only the debugfs fan path
is tried. -/
def set_fan_speed (w : World) (speed : Nat) : Bool × Writes :=
  if running_as_root w then
    if get_machine w == "jetson-tk1" then (true, [])
    else if file_writable w "/sys/kernel/debug/tegra_fan/target_pwm" then
      write_file w "/sys/kernel/debug/tegra_fan/target_pwm" (toString speed)
    else (false, [])
  else (false, [])

/-- Best-effort `get_fan_speed`: returns 0 (the `unsigned char` conversion
of `false`) without root or without the fan file; `std::stoi` can still
escape as an exception, modelled by `.error`. -/
def get_fan_speed (w : World) : Except JCErr Nat :=
  if running_as_root w then
    if get_machine w == "jetson-tk1" then .ok 255
    else if file_exists w "/sys/kernel/debug/tegra_fan/target_pwm" then
      match stoi (read_file w "/sys/kernel/debug/tegra_fan/target_pwm") with
      | none => .error .parseFailure
      | some v => .ok ((v % 256).toNat)
    else .ok 0
  else .ok 0

/-- Family dispatch of the best-effort `get_gpu_available_freqs`: only
tegra186 and tegra210 are mapped. -/
def GPU_AVAIL_FREQS_PATH (fam : String) : Option String :=
  if fam = "tegra186" then
    some "/sys/devices/17000000.gp10b/devfreq/17000000.gp10b/available_frequencies"
  else if fam = "tegra210" then
    some "/sys/devices/57000000.gpu/devfreq/57000000.gpu/available_frequencies"
  else none

/-- Best-effort `get_gpu_available_freqs`: empty list on any failure. -/
def get_gpu_available_freqs (w : World) : List Int :=
  if running_as_root w then
    match GPU_AVAIL_FREQS_PATH (get_soc_family w) with
    | none => []
    | some p => List.insertionSort (· ≤ ·) (extractLongs (read_file w p))
  else []

/-- Family dispatch of the best-effort `set_gpu_freq_range` (tegra186 and
tegra210 only). -/
def GPU_RANGE_PATHS (fam : String) : Option (String × String × String) :=
  if fam = "tegra186" then
    some ("/sys/devices/17000000.gp10b/devfreq/17000000.gp10b/min_freq",
          "/sys/devices/17000000.gp10b/devfreq/17000000.gp10b/max_freq",
          "/sys/devices/17000000.gp10b/devfreq/17000000.gp10b/device/railgate_enable")
  else if fam = "tegra210" then
    some ("/sys/devices/57000000.gpu/devfreq/57000000.gpu/min_freq",
          "/sys/devices/57000000.gpu/devfreq/57000000.gpu/max_freq",
          "/sys/devices/57000000.gpu/devfreq/57000000.gpu/device/railgate_enable")
  else none

/-- Best-effort `set_gpu_freq_range`: this one does return the accumulated
per-write success flag. -/
def set_gpu_freq_range (w : World) (min_freq max_freq : Int) : Bool × Writes :=
  if running_as_root w then
    let avail := get_gpu_available_freqs w
    if !avail.contains min_freq then (false, [])
    else if !avail.contains max_freq then (false, [])
    else
      match GPU_RANGE_PATHS (get_soc_family w) with
      | none => (false, [])
      | some (pmin, pmax, prail) =>
        let w1 := write_file w pmin (toString min_freq)
        let w2 := write_file w pmax (toString max_freq)
        let w3 := write_file w prail "0"
        (w1.1 && w2.1 && w3.1, w1.2 ++ w2.2 ++ w3.2)
  else (false, [])

/-- Best-effort `get_emc_available_freq_range`: `(0, 0)` without root or on
an unsupported family; the iso-cap override exists only on tegra186 here,
and the tegra210 rate files lack the `emc_` name part of the throwing
variant. -/
def get_emc_available_freq_range (w : World) : Except JCErr (Int × Int) :=
  if running_as_root w then
    let fam := get_soc_family w
    if fam = "tegra186" then
      let isoCap := "/sys/kernel/nvpmodel_emc_cap/emc_iso_cap"
      let minP := "/sys/kernel/debug/bpmp/debug/clk/emc/min_rate"
      let maxP0 := "/sys/kernel/debug/bpmp/debug/clk/emc/max_rate"
      match stoi (read_file w isoCap) with
      | none => .error .parseFailure
      | some cap =>
        match stoi (read_file w maxP0) with
        | none => .error .parseFailure
        | some fmax =>
          let maxP := if cap > 0 && cap < fmax then isoCap else maxP0
          match stoi (read_file w minP), stoi (read_file w maxP) with
          | some mn, some mx => .ok (mn, mx)
          | _, _ => .error .parseFailure
    else if fam = "tegra210" then
      match stoi (read_file w "/sys/kernel/debug/tegra_bwmgr/min_rate"),
            stoi (read_file w "/sys/kernel/debug/tegra_bwmgr/max_rate") with
      | some mn, some mx => .ok (mn, mx)
      | _, _ => .error .parseFailure
    else .ok (0, 0)
  else .ok (0, 0)

/-- Best-effort `set_emc_freq`: the accumulated success flag of the two
writes is computed but `true` is returned unconditionally. -/
def set_emc_freq (w : World) (freq : Int) : Except JCErr Bool × Writes :=
  if running_as_root w then
    match get_emc_available_freq_range w with
    | .error e => (.error e, [])
    | .ok (mn, mx) =>
      if freq < mn || freq > mx then (.ok false, [])
      else
        let fam := get_soc_family w
        if fam = "tegra186" then
          (.ok true, (write_file w "/sys/kernel/debug/bpmp/debug/clk/emc/rate" (toString freq)).2 ++
                     (write_file w "/sys/kernel/debug/bpmp/debug/clk/emc/mrq_rate_locked" "1").2)
        else if fam = "tegra210" then
          (.ok true, (write_file w "/sys/kernel/debug/clk/override.emc/clk_update_rate" (toString freq)).2 ++
                     (write_file w "/sys/kernel/debug/clk/override.emc/clk_state" "1").2)
        else (.ok false, [])
  else (.ok false, [])

/-- Best-effort `get_emc_freq`: without root or on an unsupported family it
returns `false` converted to `long int`, i.e. 0; only tegra186 and tegra210
are mapped (spelt correctly in this variant); `std::stoi` can still escape
as an exception, modelled by `.error`. -/
def get_emc_freq (w : World) : Except JCErr Int :=
  if running_as_root w then
    let fam := get_soc_family w
    if fam = "tegra186" then
      match stoi (read_file w "/sys/kernel/debug/bpmp/debug/clk/emc/rate") with
      | none => .error .parseFailure
      | some v => .ok v
    else if fam = "tegra210" then
      match stoi (read_file w "/sys/kernel/debug/clk/override.emc/clk_update_rate") with
      | none => .error .parseFailure
      | some v => .ok v
    else .ok 0
  else .ok 0

/-- Best-effort `get_cpu_ids`: empty list without root, otherwise the same
regex filter, digit extraction and ascending sort as the throwing
variant. -/
def get_cpu_ids (w : World) : List Int :=
  if running_as_root w then
    let cpu_subdirs :=
      (list_subdirs w "/sys/devices/system/cpu/").filter JC.matchesCpuDir
    List.insertionSort (· ≤ ·)
      (cpu_subdirs.map (fun d => ((d.data.getLastD '0').toNat : Int) - 48))
  else []

/-- Best-effort `get_cpu_governor`: the value-initialized `return {}` of the
source is the empty string, both without root and for a missing file. -/
def get_cpu_governor (w : World) (cpu_id : Int) : String :=
  if running_as_root w then
    let path := cpuPath cpu_id "scaling_governor"
    if file_exists w path then strip_newline (read_file w path) else ""
  else ""

/-- Shared tail of the three best-effort numeric per-cpu getters: the
value-initialized `return {}` of the source is the `long int` 0, both
without root and for a missing file. -/
def readCpuFreq (w : World) (cpu_id : Int) (leaf : String) : Except JCErr Int :=
  if running_as_root w then
    let path := cpuPath cpu_id leaf
    if file_exists w path then
      match stoi (read_file w path) with
      | none => .error .parseFailure
      | some v => .ok v
    else .ok 0
  else .ok 0

/-- Best-effort `get_cpu_min_freq`. -/
def get_cpu_min_freq (w : World) (cpu_id : Int) : Except JCErr Int :=
  readCpuFreq w cpu_id "scaling_min_freq"

/-- Best-effort `get_cpu_max_freq`. -/
def get_cpu_max_freq (w : World) (cpu_id : Int) : Except JCErr Int :=
  readCpuFreq w cpu_id "scaling_max_freq"

/-- Best-effort `get_cpu_cur_freq`. -/
def get_cpu_cur_freq (w : World) (cpu_id : Int) : Except JCErr Int :=
  readCpuFreq w cpu_id "scaling_cur_freq"

/-- Best-effort `get_cpu_available_freqs`: empty list on any failure
(including an empty parse, which is checked explicitly). -/
def get_cpu_available_freqs (w : World) (cpu_id : Int) : List Int :=
  if running_as_root w then
    let path := cpuPath cpu_id "scaling_available_frequencies"
    if file_exists w path then
      let speeds := extractLongs (read_file w path)
      if speeds.length = 0 then []
      else List.insertionSort (· ≤ ·) speeds
    else []
  else []

/-- Best-effort `get_cpu_available_governors`: empty list on failure. -/
def get_cpu_available_governors (w : World) (cpu_id : Int) : List String :=
  if running_as_root w then
    let path := cpuPath cpu_id "scaling_available_governors"
    if file_exists w path then splitTokens (strip_newline (read_file w path))
    else []
  else []

/-- The unconditional best-effort side-effect writes of the cpu setters
(best-effort `get_soc_family` cannot fail, so no error case arises). -/
def cpuSetterSideWrites (w : World) : Writes :=
  let e1 := (write_file w "/sys/module/qos/parameters/enable" "0").2
  if get_soc_family w = "tegra186" then
    e1 ++ (write_file w "/sys/kernel/debug/tegra_cpufreq/M_CLUSTER/cc3/enable" "0").2
       ++ (write_file w "/sys/kernel/debug/tegra_cpufreq/B_CLUSTER/cc3/enable" "0").2
  else e1

/-- Best-effort `set_cpu_min_freq`: computes the accumulated success flag
but returns `true` unconditionally once validation passed. -/
def set_cpu_min_freq (w : World) (cpu_id : Int) (min_freq : Int) : Bool × Writes :=
  if running_as_root w then
    let path := cpuPath cpu_id "scaling_min_freq"
    if file_writable w path then
      let freqs := get_cpu_available_freqs w cpu_id
      if freqs.length = 0 then (false, [])
      else if !freqs.contains min_freq then (false, [])
      else (true, cpuSetterSideWrites w ++ (write_file w path (toString min_freq)).2)
    else (false, [])
  else (false, [])

/-- Best-effort `set_cpu_max_freq`: returns `true` unconditionally once
validation passed. -/
def set_cpu_max_freq (w : World) (cpu_id : Int) (max_freq : Int) : Bool × Writes :=
  if running_as_root w then
    let path := cpuPath cpu_id "scaling_max_freq"
    if file_writable w path then
      let freqs := get_cpu_available_freqs w cpu_id
      if freqs.length = 0 then (false, [])
      else if !freqs.contains max_freq then (false, [])
      else (true, cpuSetterSideWrites w ++ (write_file w path (toString max_freq)).2)
    else (false, [])
  else (false, [])

/-- Best-effort `set_cpu_governor`: checks the governor file for existence
only, then returns `true` unconditionally once validation passed. -/
def set_cpu_governor (w : World) (cpu_id : Int) (governor : String) : Bool × Writes :=
  if running_as_root w then
    let path := cpuPath cpu_id "scaling_governor"
    if file_exists w path then
      let govs := get_cpu_available_governors w cpu_id
      if govs.length = 0 then (false, [])
      else if !govs.contains governor then (false, [])
      else (true, cpuSetterSideWrites w ++ (write_file w path governor).2)
    else (false, [])
  else (false, [])

end JCB

/-! Concrete worlds used to instantiate the theorems. -/

/-- A world with no files at all, observed by an unprivileged caller. -/
def wNoRoot : World := ⟨1000, fun _ => none, fun _ => false, fun _ => none⟩

/-- A world with no files at all. -/
def wEmpty : World := ⟨0, fun _ => none, fun _ => false, fun _ => none⟩

/-- Unprivileged caller on a board whose primary id file says tegra210 and
whose GPU load file reads 42. -/
def wUsage : World :=
  ⟨1000,
   fun p =>
     if p = "/sys/devices/soc0/family" then some "tegra210"
     else if p = "/sys/devices/gpu.0/load" then some "42"
     else none,
   fun _ => false,
   fun _ => none⟩

/-- Root on a tegra194 board, every control file writable, with small
available sets; used to exercise value rejection. -/
def wReject : World :=
  ⟨0,
   fun p =>
     if p = "/sys/devices/soc0/family" then some "tegra194"
     else if p = "/sys/devices/17000000.gv11b/devfreq/17000000.gv11b/available_frequencies" then
       some "100 500"
     else if p = "/sys/kernel/nvpmodel_emc_cap/emc_iso_cap" then some "0"
     else if p = "/sys/kernel/debug/bpmp/debug/clk/emc/min_rate" then some "100"
     else if p = "/sys/kernel/debug/bpmp/debug/clk/emc/max_rate" then some "900"
     else if p = "/sys/devices/system/cpu/cpu0/cpufreq/scaling_min_freq" then some "100"
     else if p = "/sys/devices/system/cpu/cpu0/cpufreq/scaling_max_freq" then some "500"
     else if p = "/sys/devices/system/cpu/cpu0/cpufreq/scaling_governor" then some "performance"
     else if p = "/sys/devices/system/cpu/cpu0/cpufreq/scaling_available_frequencies" then
       some "100 200"
     else if p = "/sys/devices/system/cpu/cpu0/cpufreq/scaling_available_governors" then
       some "schedutil performance"
     else none,
   fun _ => true,
   fun _ => none⟩

/-- A world whose only identification source is a compatible string naming
tegra194. -/
def wCompat194 : World :=
  ⟨0,
   fun p => if p = "/proc/device-tree/compatible" then some "abc-nvidia,tegra194-xyz" else none,
   fun _ => false,
   fun _ => none⟩

/-- A world whose only identification source is a compatible string naming
tegra186. -/
def wCompat186 : World :=
  ⟨0,
   fun p => if p = "/proc/device-tree/compatible" then some "x nvidia,tegra186 y" else none,
   fun _ => false,
   fun _ => none⟩

/-- A world whose primary id file holds arbitrary text with a trailing
newline. -/
def wNewline : World :=
  ⟨0,
   fun p => if p = "/sys/devices/soc0/family" then some "tegra186\n" else none,
   fun _ => false,
   fun _ => none⟩

/-- Root on a board whose primary id file holds the misspelt family string
tested by `get_emc_freq`, with the EMC rate file readable. -/
def wTagra : World :=
  ⟨0,
   fun p =>
     if p = "/sys/devices/soc0/family" then some "tagra194"
     else if p = "/sys/kernel/debug/bpmp/debug/clk/emc/rate" then some "100"
     else none,
   fun _ => false,
   fun _ => none⟩

/-- Root on a tegra194 board with only the primary id file present. -/
def wFam194 : World :=
  ⟨0,
   fun p => if p = "/sys/devices/soc0/family" then some "tegra194" else none,
   fun _ => false,
   fun _ => none⟩

/-- Root on a tegra186 board whose EMC iso-cap file reads 300 against a
nominal maximum of 900. -/
def wIsoCap : World :=
  ⟨0,
   fun p =>
     if p = "/sys/devices/soc0/family" then some "tegra186"
     else if p = "/sys/kernel/nvpmodel_emc_cap/emc_iso_cap" then some "300"
     else if p = "/sys/kernel/debug/bpmp/debug/clk/emc/min_rate" then some "100"
     else if p = "/sys/kernel/debug/bpmp/debug/clk/emc/max_rate" then some "900"
     else none,
   fun _ => false,
   fun _ => none⟩

/-- Root on a jetson-tk1 board (machine file read through the primary id
branch), with no fan files at all. -/
def wTk1 : World :=
  ⟨0,
   fun p =>
     if p = "/sys/devices/soc0/family" then some "tegra-something"
     else if p = "/sys/devices/soc0/machine" then some "jetson-tk1"
     else none,
   fun _ => false,
   fun _ => none⟩

/-- Root on a tegra194 board whose GPU and cpu0 available-frequency files
hold the unsorted text of end-to-end scenario A. -/
def wScenarioA : World :=
  ⟨0,
   fun p =>
     if p = "/sys/devices/soc0/family" then some "tegra194"
     else if p = "/sys/devices/17000000.gv11b/devfreq/17000000.gv11b/available_frequencies" then
       some "100 900 500"
     else if p = "/sys/devices/system/cpu/cpu0/cpufreq/scaling_available_frequencies" then
       some "100 900 500"
     else none,
   fun _ => false,
   fun _ => none⟩

/-- The directory entries of the symlink counterexample: a single symbolic
link whose target is a directory. -/
def entsLink : List DirEntry := [⟨"link", .symlinkToDir⟩]

/-- A world with one directory `/d` containing only `entsLink`. -/
def wLink : World :=
  ⟨0, fun _ => none, fun _ => false,
   fun p => if p = "/d" then some entsLink else none⟩

/-- Directory entries of every kind, including the `.` and `..` entries. -/
def entsMixed : List DirEntry :=
  [⟨".", .dir⟩, ⟨"..", .dir⟩, ⟨"a", .regular⟩, ⟨"b", .dir⟩,
   ⟨"c", .symlinkToOther⟩, ⟨"e", .statFail⟩]

/-- A world with one directory `/d` containing `entsMixed`. -/
def wMixed : World :=
  ⟨0, fun _ => none, fun _ => false,
   fun p => if p = "/d" then some entsMixed else none⟩

/-- Root on a tegra210 board set up so that the best-effort setters pass
validation while several of their writes fail: the QoS file and the EMC
target files are missing, and the governor file exists but is not
writable. -/
def wBestEffort : World :=
  ⟨0,
   fun p =>
     if p = "/sys/devices/soc0/family" then some "tegra210"
     else if p = "/sys/kernel/debug/tegra_bwmgr/min_rate" then some "100"
     else if p = "/sys/kernel/debug/tegra_bwmgr/max_rate" then some "900"
     else if p = "/sys/devices/system/cpu/cpu0/cpufreq/scaling_min_freq" then some "0"
     else if p = "/sys/devices/system/cpu/cpu0/cpufreq/scaling_max_freq" then some "0"
     else if p = "/sys/devices/system/cpu/cpu0/cpufreq/scaling_governor" then some "performance"
     else if p = "/sys/devices/system/cpu/cpu0/cpufreq/scaling_available_frequencies" then
       some "100 200"
     else if p = "/sys/devices/system/cpu/cpu0/cpufreq/scaling_available_governors" then
       some "performance powersave"
     else none,
   fun p =>
     p = "/sys/devices/system/cpu/cpu0/cpufreq/scaling_min_freq" ||
     p = "/sys/devices/system/cpu/cpu0/cpufreq/scaling_max_freq",
   fun _ => none⟩

/-! Helper lemmas. -/

/-- The `readdir` loop keeps exactly the non-dot entries whose
symlink-following stat reports a directory. -/
theorem subdirsLoop_eq_filter (es : List DirEntry) :
    subdirsLoop es =
      (es.filter (fun e =>
        !(e.name == "." || e.name == "..") && (statIsDir e.kind == some true))).map
        (fun e => e.name) := by
  induction es with
  | nil => rfl
  | cons e rest ih =>
    rw [subdirsLoop, List.filter_cons]
    cases h1 : (e.name == "." || e.name == "..") with
    | true =>
      simp only [h1, Bool.not_true, Bool.false_and, if_true, Bool.false_eq_true, if_false, ih]
    | false =>
      cases hst : statIsDir e.kind with
      | none =>
        simp only [h1, hst, Bool.not_false, Bool.true_and, if_false, Bool.false_eq_true, ih]
        rfl
      | some b =>
        cases b with
        | true =>
          simp only [h1, hst, Bool.not_false, Bool.true_and, Bool.false_eq_true, if_false,
            if_true, ih]
          rfl
        | false =>
          simp only [h1, hst, Bool.not_false, Bool.true_and, Bool.false_eq_true, if_false, ih]
          rfl

/-! Claim theorems. -/

/-- Claim C6: when the machine model string equals `"jetson-tk1"` and the
caller holds elevated privilege, `set_fan_speed` reports success for every
speed value without writing any file, and `get_fan_speed` returns 255,
regardless of the contents or existence of any fan control file — in both
the exception-throwing and the best-effort variant. -/
theorem c6_tk1_fan (w : World) (speed : Nat)
    (hroot : running_as_root w = true)
    (hm : JC.get_machine w = .ok "jetson-tk1")
    (hmB : JCB.get_machine w = "jetson-tk1") :
    JC.set_fan_speed w speed = (.ok (), []) ∧
    JC.get_fan_speed w = .ok 255 ∧
    JCB.set_fan_speed w speed = (true, []) ∧
    JCB.get_fan_speed w = .ok 255 := by
  refine ⟨?_, ?_, ?_, ?_⟩ <;>
    simp [JC.set_fan_speed, JC.get_fan_speed, JCB.set_fan_speed, JCB.get_fan_speed,
          hroot, hm, hmB]

/-- Witness for C6 at a concrete jetson-tk1 world with no fan files. -/
theorem c6_tk1_fan_witness :
    JC.set_fan_speed wTk1 7 = (.ok (), []) ∧
    JC.get_fan_speed wTk1 = .ok 255 ∧
    JCB.set_fan_speed wTk1 7 = (true, []) ∧
    JCB.get_fan_speed wTk1 = .ok 255 :=
  c6_tk1_fan wTk1 7 rfl rfl rfl

/-- Claim C8 (amended): `list_subdirs` returns, in readdir order, exactly
the child entries other than `.` and `..` whose symlink-following stat mode
is a directory — so plain files, unstattable entries and symlinks to
non-directories are excluded, but a symbolic link whose target is a
directory is included; when the path cannot be opened as a directory the
result is the empty sequence, not an error. -/
theorem c8_list_subdirs (w : World) (path : String) (es : List DirEntry) :
    (w.dirents path = none → list_subdirs w path = []) ∧
    (w.dirents path = some es →
      list_subdirs w path =
        (es.filter (fun e =>
          !(e.name == "." || e.name == "..") && (statIsDir e.kind == some true))).map
          (fun e => e.name)) := by
  constructor
  · intro h
    simp [list_subdirs, h]
  · intro h
    simp [list_subdirs, h, subdirsLoop_eq_filter]

/-- Witness for C8: a directory with one entry of every kind keeps only the
true subdirectory, and an unopenable path yields the empty sequence. -/
theorem c8_list_subdirs_witness :
    list_subdirs wMixed "/d" = ["b"] ∧ list_subdirs wMixed "/nope" = [] :=
  ⟨by rw [(c8_list_subdirs wMixed "/d" entsMixed).2 rfl]; rfl,
   (c8_list_subdirs wMixed "/nope" []).1 rfl⟩

/-- Counterexample for C8 as stated: the claim says symbolic links are
excluded, but `fstatat` is called with flags 0 and therefore follows
symlinks, so a symbolic link whose target is a directory is listed. -/
theorem c8_symlink_counterexample :
    wLink.dirents "/d" = some [⟨"link", .symlinkToDir⟩] ∧
    list_subdirs wLink "/d" = ["link"] :=
  ⟨rfl, rfl⟩

/-- Claim C5: on the families with an EMC iso-cap override, when the iso-cap
file parses to a positive value strictly below the nominal maximum, the
effective maximum reported by the EMC available-range getter is read from
the iso-cap file; otherwise the nominal maximum file is used.  The
best-effort variant behaves the same on its one iso-cap family. -/
theorem c5_emc_iso_cap (w : World) (fam : String) (cap fmax fmin : Int)
    (hroot : running_as_root w = true)
    (hfam : JC.get_soc_family w = .ok fam)
    (hsup : fam = "tegra186" ∨ fam = "tegra194")
    (hcap : stoi (read_file w "/sys/kernel/nvpmodel_emc_cap/emc_iso_cap") = some cap)
    (hmax : stoi (read_file w "/sys/kernel/debug/bpmp/debug/clk/emc/max_rate") = some fmax)
    (hmin : stoi (read_file w "/sys/kernel/debug/bpmp/debug/clk/emc/min_rate") = some fmin) :
    JC.get_emc_available_freqs w =
      .ok [fmin, if cap > 0 && cap < fmax then cap else fmax] ∧
    (JCB.get_soc_family w = "tegra186" →
      JCB.get_emc_available_freq_range w =
        .ok (fmin, if cap > 0 && cap < fmax then cap else fmax)) := by
  have hsup2 : (fam = "tegra186" || fam = "tegra194") = true := by
    rcases hsup with h | h <;> simp [h]
  constructor
  · cases hc : (decide (cap > 0) && decide (cap < fmax)) with
    | true =>
      simp [JC.get_emc_available_freqs, JC.EMC_AVAIL_PATHS, hroot, hfam, hsup2,
            hcap, hmax, hmin, hc]
    | false =>
      simp [JC.get_emc_available_freqs, JC.EMC_AVAIL_PATHS, hroot, hfam, hsup2,
            hcap, hmax, hmin, hc]
  · intro hfamB
    cases hc : (decide (cap > 0) && decide (cap < fmax)) with
    | true =>
      simp [JCB.get_emc_available_freq_range, hroot, hfamB, hcap, hmax, hmin, hc]
    | false =>
      simp [JCB.get_emc_available_freq_range, hroot, hfamB, hcap, hmax, hmin, hc]

/-- Witness for C5: iso-cap 300 against nominal max 900 yields effective
max 300 (end-to-end scenario B), in both variants. -/
theorem c5_emc_iso_cap_witness :
    JC.get_emc_available_freqs wIsoCap = .ok [100, 300] ∧
    JCB.get_emc_available_freq_range wIsoCap = .ok (100, 300) :=
  ⟨(c5_emc_iso_cap wIsoCap "tegra186" 300 900 100 rfl rfl (Or.inl rfl) rfl rfl rfl).1,
   (c5_emc_iso_cap wIsoCap "tegra186" 300 900 100 rfl rfl (Or.inl rfl) rfl rfl rfl).2 rfl⟩

/-- Claim C7: for every content of the backing file, the GPU and per-CPU
available-frequencies getters return a permutation of the stream-extracted
integers of the file, sorted in ascending order. -/
theorem c7_available_freqs_sorted (w : World) (fam p : String) (cpu_id : Int)
    (hroot : running_as_root w = true)
    (hfam : JC.get_soc_family w = .ok fam)
    (hp : JC.GPU_AVAIL_FREQS_PATH fam = some p)
    (hcpu : file_exists w (cpuPath cpu_id "scaling_available_frequencies") = true) :
    (∃ l, JC.get_gpu_available_freqs w = .ok l ∧
       l.Perm (extractLongs (read_file w p)) ∧ List.Sorted (· ≤ ·) l) ∧
    (∃ lc, JC.get_cpu_available_freqs w cpu_id = .ok lc ∧
       lc.Perm (extractLongs (read_file w (cpuPath cpu_id "scaling_available_frequencies"))) ∧
       List.Sorted (· ≤ ·) lc) := by
  constructor
  · refine ⟨_, ?_, List.perm_insertionSort _ _, List.sorted_insertionSort _ _⟩
    simp [JC.get_gpu_available_freqs, hroot, hfam, hp]
  · refine ⟨_, ?_, List.perm_insertionSort _ _, List.sorted_insertionSort _ _⟩
    simp [JC.get_cpu_available_freqs, hroot, hcpu]

/-- Witness for C7: file content `"100 900 500"` yields `[100, 500, 900]`
for both getters (end-to-end scenario A). -/
theorem c7_available_freqs_sorted_witness :
    ((∃ l, JC.get_gpu_available_freqs wScenarioA = .ok l ∧
        l.Perm (extractLongs (read_file wScenarioA
          "/sys/devices/17000000.gv11b/devfreq/17000000.gv11b/available_frequencies")) ∧
        List.Sorted (· ≤ ·) l) ∧
     (∃ lc, JC.get_cpu_available_freqs wScenarioA 0 = .ok lc ∧
        lc.Perm (extractLongs (read_file wScenarioA
          (cpuPath 0 "scaling_available_frequencies"))) ∧
        List.Sorted (· ≤ ·) lc)) ∧
    JC.get_gpu_available_freqs wScenarioA = .ok [100, 500, 900] ∧
    JC.get_cpu_available_freqs wScenarioA 0 = .ok [100, 500, 900] :=
  ⟨c7_available_freqs_sorted wScenarioA "tegra194"
      "/sys/devices/17000000.gv11b/devfreq/17000000.gv11b/available_frequencies" 0
      rfl rfl rfl rfl,
   rfl, rfl⟩

/-- Counterexample for C3 as stated: in the exception-throwing variant,
board discovery does fail (throws) when neither identification source
exists; and the best-effort variant does not pattern-match
`nvidia,tegra194` at all, returning the unknown family for a tegra194
compatible string. -/
theorem c3_soc_family_counterexample :
    JC.get_soc_family wEmpty = .error .unsupportedPlatform ∧
    JCB.get_soc_family wCompat194 = "" :=
  ⟨rfl, rfl⟩

/-- Claim C3 (amended): `get_soc_family` prefers the primary identification
file, returning its content verbatim.  If it is absent, the
exception-throwing variant pattern-matches `nvidia,tegra210`,
`nvidia,tegra186`, `nvidia,tegra194` in that priority order with first
match winning, while the best-effort variant matches only the first two; a
compatible string matching nothing yields the unknown (empty) family
without failure.  When neither source exists, the best-effort variant
returns the unknown family, but the exception-throwing variant fails. -/
theorem c3_soc_family (w : World) (c : String) :
    (w.file "/sys/devices/soc0/family" = some c →
       JC.get_soc_family w = .ok c ∧ JCB.get_soc_family w = c) ∧
    (w.file "/sys/devices/soc0/family" = none →
     w.file "/proc/device-tree/compatible" = some c →
       JC.get_soc_family w = .ok
         (if containsSub "nvidia,tegra210".data c.data then "tegra210"
          else if containsSub "nvidia,tegra186".data c.data then "tegra186"
          else if containsSub "nvidia,tegra194".data c.data then "tegra194"
          else "") ∧
       JCB.get_soc_family w =
         (if containsSub "nvidia,tegra210".data c.data then "tegra210"
          else if containsSub "nvidia,tegra186".data c.data then "tegra186"
          else "")) ∧
    (w.file "/sys/devices/soc0/family" = none →
     w.file "/proc/device-tree/compatible" = none →
       JC.get_soc_family w = .error .unsupportedPlatform ∧
       JCB.get_soc_family w = "") := by
  refine ⟨fun h => ?_, fun h1 h2 => ?_, fun h1 h2 => ?_⟩
  · constructor <;>
      simp [JC.get_soc_family, JCB.get_soc_family, file_exists, read_file, h]
  · constructor
    · simp only [JC.get_soc_family, file_exists, read_file, h1, h2, Option.isSome_none,
        Option.isSome_some, Bool.false_eq_true, if_false, if_true, Option.getD_some]
      split <;> [rfl; split <;> [rfl; split <;> rfl]]
    · simp [JCB.get_soc_family, file_exists, read_file, h1, h2]
  · constructor <;>
      simp [JC.get_soc_family, JCB.get_soc_family, file_exists, read_file, h1, h2]

/-- Witness for C3: a verbatim primary file, a tegra186 compatible string,
and the no-source case, each at a concrete world. -/
theorem c3_soc_family_witness :
    (JC.get_soc_family wTk1 = .ok "tegra-something" ∧
     JCB.get_soc_family wTk1 = "tegra-something") ∧
    (JC.get_soc_family wCompat186 = .ok "tegra186" ∧
     JCB.get_soc_family wCompat186 = "tegra186") ∧
    (JC.get_soc_family wEmpty = .error .unsupportedPlatform ∧
     JCB.get_soc_family wEmpty = "") :=
  ⟨(c3_soc_family wTk1 "tegra-something").1 rfl,
   (c3_soc_family wCompat186 "x nvidia,tegra186 y").2.1 rfl rfl,
   (c3_soc_family wEmpty "").2.2 rfl rfl⟩

/-- A string whose last character is a newline differs from any string
whose last character is not. -/
theorem ne_of_last_newline (s t : String)
    (hnl : s.data.getLast? = some '\n') (ht : t.data.getLast? ≠ some '\n') :
    s ≠ t := by
  intro h
  subst h
  exact ht hnl

/-- Counterexample for C10 as stated: not every family-dependent operation
dispatches by exact string equality against only `"tegra186"`,
`"tegra210"`, `"tegra194"`: `get_emc_freq` tests the misspelt string
`"tagra194"`, and on a primary id file holding exactly that value it takes
a supported branch instead of the unsupported-SoC branch. -/
theorem c10_dispatch_counterexample :
    JC.get_soc_family wTagra = .ok "tagra194" ∧
    ¬("tagra194" = "tegra186" ∨ "tagra194" = "tegra210" ∨ "tagra194" = "tegra194") ∧
    JC.get_emc_freq wTagra = .ok 100 :=
  ⟨rfl, by decide, rfl⟩

/-- Claim C10 (amended): when the primary identification file exists,
`get_soc_family` returns its entire content verbatim, trailing newline
included; every family-dependent GPU/EMC operation dispatches by exact
string equality against a fixed set of family literals (`"tegra186"`,
`"tegra210"`, `"tegra194"`, except `get_emc_freq`, which tests the misspelt
`"tagra194"` in place of `"tegra194"`), none of which end in a newline, so
a primary file content with a trailing newline sends every such operation
into its unsupported-SoC branch. -/
theorem c10_trailing_newline (w : World) (s : String)
    (hp : w.file "/sys/devices/soc0/family" = some s)
    (hnl : s.data.getLast? = some '\n')
    (hroot : running_as_root w = true) :
    JC.get_soc_family w = .ok s ∧
    JC.get_gpu_available_freqs w = .error .unsupportedPlatform ∧
    JC.set_gpu_freq_range w 0 0 = (.error .unsupportedPlatform, []) ∧
    JC.get_gpu_cur_freq w = .error .unsupportedPlatform ∧
    JC.get_gpu_min_freq w = .error .unsupportedPlatform ∧
    JC.get_gpu_max_freq w = .error .unsupportedPlatform ∧
    JC.get_gpu_current_usage w = .error .unsupportedPlatform ∧
    JC.get_emc_available_freqs w = .error .unsupportedPlatform ∧
    JC.get_emc_freq w = .error .unsupportedPlatform ∧
    JC.set_emc_freq w 0 = (.error .unsupportedPlatform, []) := by
  have hfam : JC.get_soc_family w = .ok s := by
    simp [JC.get_soc_family, file_exists, read_file, hp]
  have h186 : s ≠ "tegra186" := ne_of_last_newline s "tegra186" hnl (by decide)
  have h210 : s ≠ "tegra210" := ne_of_last_newline s "tegra210" hnl (by decide)
  have h194 : s ≠ "tegra194" := ne_of_last_newline s "tegra194" hnl (by decide)
  have hta : s ≠ "tagra194" := ne_of_last_newline s "tagra194" hnl (by decide)
  have hga : JC.GPU_AVAIL_FREQS_PATH s = none := by
    simp [JC.GPU_AVAIL_FREQS_PATH, h186, h210, h194]
  have hec : JC.EMC_AVAIL_PATHS s = none := by
    simp [JC.EMC_AVAIL_PATHS, h186, h210, h194]
  have hef : JC.EMC_FREQ_PATHS s = none := by
    simp [JC.EMC_FREQ_PATHS, h186, h210, hta]
  have hgav : JC.get_gpu_available_freqs w = .error .unsupportedPlatform := by
    simp [JC.get_gpu_available_freqs, hroot, hfam, hga]
  have heav : JC.get_emc_available_freqs w = .error .unsupportedPlatform := by
    simp [JC.get_emc_available_freqs, hroot, hfam, hec]
  refine ⟨hfam, hgav, ?_, ?_, ?_, ?_, ?_, heav, ?_, ?_⟩
  · simp [JC.set_gpu_freq_range, hroot, hgav]
  · simp [JC.get_gpu_cur_freq, JC.GPU_CUR_FREQ_PATH, JC.readFreqAt,
          hroot, hfam, h186, h210, h194]
  · simp [JC.get_gpu_min_freq, JC.GPU_MIN_FREQ_PATH, JC.readFreqAt,
          hroot, hfam, h186, h210, h194]
  · simp [JC.get_gpu_max_freq, JC.GPU_MAX_FREQ_PATH, JC.readFreqAt,
          hroot, hfam, h186, h210, h194]
  · simp [JC.get_gpu_current_usage, hfam, h210]
  · simp [JC.get_emc_freq, hroot, hfam, hef]
  · simp [JC.set_emc_freq, hroot, heav]

/-- Claim C2: every setter whose requested value is not in the available
set (for EMC: not in the available range) returned by the corresponding
getter fails with the value-not-available error of its posture and performs
no file write at all, auxiliary QoS/cluster-idle writes included. -/
theorem c2_reject_no_write (w : World) (cpu_id mnG mxG freqE mnC mxC : Int)
    (gov : String) (availG availC : List Int) (govs : List String) (lo hi : Int)
    (hroot : running_as_root w = true)
    (hG : JC.get_gpu_available_freqs w = .ok availG)
    (hGm : availG.contains mnG = false ∨ availG.contains mxG = false)
    (hGB : (JCB.get_gpu_available_freqs w).contains mnG = false ∨
           (JCB.get_gpu_available_freqs w).contains mxG = false)
    (hE : JC.get_emc_available_freqs w = .ok [lo, hi])
    (hEr : freqE < lo ∨ freqE > hi)
    (hCw : file_writable w (cpuPath cpu_id "scaling_min_freq") = true)
    (hCx : file_writable w (cpuPath cpu_id "scaling_max_freq") = true)
    (hCg : file_exists w (cpuPath cpu_id "scaling_governor") = true)
    (hCa : JC.get_cpu_available_freqs w cpu_id = .ok availC)
    (hmn : availC.contains mnC = false)
    (hmx : availC.contains mxC = false)
    (hGo : JC.get_cpu_available_governors w cpu_id = .ok govs)
    (hgv : govs.contains gov = false) :
    JC.set_gpu_freq_range w mnG mxG = (.error .valueNotAvailable, []) ∧
    JC.set_emc_freq w freqE = (.error .valueNotAvailable, []) ∧
    JC.set_cpu_min_freq w cpu_id mnC = (.error .valueNotAvailable, []) ∧
    JC.set_cpu_max_freq w cpu_id mxC = (.error .valueNotAvailable, []) ∧
    JC.set_cpu_governor w cpu_id gov = (.error .valueNotAvailable, []) ∧
    JCB.set_gpu_freq_range w mnG mxG = (false, []) := by
  refine ⟨?_, ?_, ?_, ?_, ?_, ?_⟩
  · rcases hGm with h | h
    · have h' : mnG ∉ availG := by simpa using h
      simp [JC.set_gpu_freq_range, hroot, hG, h']
    · have h' : mxG ∉ availG := by simpa using h
      by_cases hmn' : mnG ∈ availG <;>
        simp [JC.set_gpu_freq_range, hroot, hG, h', hmn']
  · rcases hEr with h | h <;> simp [JC.set_emc_freq, hroot, hE, h]
  · have h' : mnC ∉ availC := by simpa using hmn
    simp [JC.set_cpu_min_freq, hroot, hCw, hCa, h']
  · have h' : mxC ∉ availC := by simpa using hmx
    simp [JC.set_cpu_max_freq, hroot, hCx, hCa, h']
  · have h' : gov ∉ govs := by simpa using hgv
    simp [JC.set_cpu_governor, hroot, hCg, hGo, h']
  · rcases hGB with h | h
    · have h' : mnG ∉ JCB.get_gpu_available_freqs w := by simpa using h
      simp [JCB.set_gpu_freq_range, hroot, h']
    · have h' : mxG ∉ JCB.get_gpu_available_freqs w := by simpa using h
      by_cases hmn' : mnG ∈ JCB.get_gpu_available_freqs w <;>
        simp [JCB.set_gpu_freq_range, hroot, h', hmn']

/-- Witness for C2 at a tegra194 world where every requested value is
outside its advertised available set. -/
theorem c2_reject_no_write_witness :
    JC.set_gpu_freq_range wReject 300 500 = (.error .valueNotAvailable, []) ∧
    JC.set_emc_freq wReject 50 = (.error .valueNotAvailable, []) ∧
    JC.set_cpu_min_freq wReject 0 99 = (.error .valueNotAvailable, []) ∧
    JC.set_cpu_max_freq wReject 0 101 = (.error .valueNotAvailable, []) ∧
    JC.set_cpu_governor wReject 0 "turbo" = (.error .valueNotAvailable, []) ∧
    JCB.set_gpu_freq_range wReject 300 500 = (false, []) :=
  c2_reject_no_write wReject 0 300 500 50 99 101 "turbo" [100, 500] [100, 200]
    ["schedutil", "performance"] 100 900
    rfl rfl (Or.inl rfl) (Or.inl rfl) rfl (Or.inl (by decide))
    rfl rfl rfl rfl rfl rfl rfl rfl

/-- Counterexample for C4 as stated: the GPU current-frequency resolver
yields the empty placeholder path for the supported family tegra186, and on
a supported tegra194 board the EMC current-frequency getter fails with the
unsupported-platform error because its family test misspells the family
string. -/
theorem c4_path_resolution_counterexample :
    JC.GPU_CUR_FREQ_PATH "tegra186" = some "" ∧
    JC.get_soc_family wFam194 = .ok "tegra194" ∧
    JC.get_emc_freq wFam194 = .error .unsupportedPlatform :=
  ⟨rfl, rfl, rfl⟩

/-- Claim C4 (amended): path resolution for the GPU available-frequencies
getter and the GPU range setter yields a non-empty, family-correct path set
for each of tegra186, tegra210 and tegra194; the GPU current/min/max
frequency getters resolve a non-empty path only for tegra194, with an empty
placeholder path for the other two families; EMC available-range and
EMC-set resolution covers all three families, but the EMC
current-frequency getter tests the misspelt `"tagra194"` in place of
`"tegra194"` and therefore rejects tegra194 as unsupported; and for any
family outside the compared literals every GPU and EMC operation fails with
the unsupported-platform error. -/
theorem c4_path_resolution (w : World) (fam : String)
    (hroot : running_as_root w = true)
    (hfam : JC.get_soc_family w = .ok fam)
    (h186 : fam ≠ "tegra186") (h210 : fam ≠ "tegra210") (h194 : fam ≠ "tegra194")
    (hta : fam ≠ "tagra194") :
    (JC.GPU_AVAIL_FREQS_PATH "tegra186" =
       some "/sys/devices/17000000.gp10b/devfreq/17000000.gp10b/available_frequencies" ∧
     JC.GPU_AVAIL_FREQS_PATH "tegra210" =
       some "/sys/devices/57000000.gpu/devfreq/57000000.gpu/available_frequencies" ∧
     JC.GPU_AVAIL_FREQS_PATH "tegra194" =
       some "/sys/devices/17000000.gv11b/devfreq/17000000.gv11b/available_frequencies") ∧
    ((JC.GPU_RANGE_PATHS "tegra186").isSome = true ∧
     (JC.GPU_RANGE_PATHS "tegra210").isSome = true ∧
     (JC.GPU_RANGE_PATHS "tegra194").isSome = true) ∧
    (JC.GPU_CUR_FREQ_PATH "tegra186" = some "" ∧
     JC.GPU_CUR_FREQ_PATH "tegra210" = some "" ∧
     JC.GPU_CUR_FREQ_PATH "tegra194" =
       some "/sys/devices/17000000.gv11b/devfreq/17000000.gv11b/cur_freq" ∧
     JC.GPU_MIN_FREQ_PATH "tegra186" = some "" ∧
     JC.GPU_MIN_FREQ_PATH "tegra210" = some "" ∧
     JC.GPU_MAX_FREQ_PATH "tegra186" = some "" ∧
     JC.GPU_MAX_FREQ_PATH "tegra210" = some "") ∧
    ((JC.EMC_AVAIL_PATHS "tegra186").isSome = true ∧
     (JC.EMC_AVAIL_PATHS "tegra210").isSome = true ∧
     (JC.EMC_AVAIL_PATHS "tegra194").isSome = true ∧
     (JC.SET_EMC_PATHS "tegra186").isSome = true ∧
     (JC.SET_EMC_PATHS "tegra210").isSome = true ∧
     (JC.SET_EMC_PATHS "tegra194").isSome = true ∧
     JC.EMC_FREQ_PATHS "tegra194" = none ∧
     (JC.EMC_FREQ_PATHS "tagra194").isSome = true) ∧
    (JC.get_gpu_available_freqs w = .error .unsupportedPlatform ∧
     JC.get_gpu_cur_freq w = .error .unsupportedPlatform ∧
     JC.get_gpu_min_freq w = .error .unsupportedPlatform ∧
     JC.get_gpu_max_freq w = .error .unsupportedPlatform ∧
     JC.set_gpu_freq_range w 0 0 = (.error .unsupportedPlatform, []) ∧
     JC.get_emc_available_freqs w = .error .unsupportedPlatform ∧
     JC.get_emc_freq w = .error .unsupportedPlatform ∧
     JC.set_emc_freq w 0 = (.error .unsupportedPlatform, [])) := by
  have hga : JC.GPU_AVAIL_FREQS_PATH fam = none := by
    simp [JC.GPU_AVAIL_FREQS_PATH, h186, h210, h194]
  have hec : JC.EMC_AVAIL_PATHS fam = none := by
    simp [JC.EMC_AVAIL_PATHS, h186, h210, h194]
  have hef : JC.EMC_FREQ_PATHS fam = none := by
    simp [JC.EMC_FREQ_PATHS, h186, h210, hta]
  have hgav : JC.get_gpu_available_freqs w = .error .unsupportedPlatform := by
    simp [JC.get_gpu_available_freqs, hroot, hfam, hga]
  have heav : JC.get_emc_available_freqs w = .error .unsupportedPlatform := by
    simp [JC.get_emc_available_freqs, hroot, hfam, hec]
  refine ⟨⟨rfl, rfl, rfl⟩, ⟨rfl, rfl, rfl⟩, ⟨rfl, rfl, rfl, rfl, rfl, rfl, rfl⟩,
          ⟨rfl, rfl, rfl, rfl, rfl, rfl, rfl, rfl⟩,
          hgav, ?_, ?_, ?_, ?_, heav, ?_, ?_⟩
  · simp [JC.get_gpu_cur_freq, JC.GPU_CUR_FREQ_PATH, JC.readFreqAt,
          hroot, hfam, h186, h210, h194]
  · simp [JC.get_gpu_min_freq, JC.GPU_MIN_FREQ_PATH, JC.readFreqAt,
          hroot, hfam, h186, h210, h194]
  · simp [JC.get_gpu_max_freq, JC.GPU_MAX_FREQ_PATH, JC.readFreqAt,
          hroot, hfam, h186, h210, h194]
  · simp [JC.set_gpu_freq_range, hroot, hgav]
  · simp [JC.get_emc_freq, hroot, hfam, hef]
  · simp [JC.set_emc_freq, hroot, heav]

/-- Witness for C4 at a board whose primary id file names an unknown
family. -/
theorem c4_path_resolution_witness :
    JC.get_gpu_available_freqs wTk1 = .error .unsupportedPlatform ∧
    JC.get_gpu_cur_freq wTk1 = .error .unsupportedPlatform ∧
    JC.get_gpu_min_freq wTk1 = .error .unsupportedPlatform ∧
    JC.get_gpu_max_freq wTk1 = .error .unsupportedPlatform ∧
    JC.set_gpu_freq_range wTk1 0 0 = (.error .unsupportedPlatform, []) ∧
    JC.get_emc_available_freqs wTk1 = .error .unsupportedPlatform ∧
    JC.get_emc_freq wTk1 = .error .unsupportedPlatform ∧
    JC.set_emc_freq wTk1 0 = (.error .unsupportedPlatform, []) :=
  (c4_path_resolution wTk1 "tegra-something" rfl rfl (by decide) (by decide)
    (by decide) (by decide)).2.2.2.2

/-- Counterexample for C1 as stated: `get_gpu_current_usage` is a public
GPU getter that performs no privilege check at all — without root it reads
the load file and returns its value instead of failing with the
privilege-denied error. -/
theorem c1_privilege_gate_counterexample :
    running_as_root wUsage = false ∧
    JC.get_gpu_current_usage wUsage = .ok 42 :=
  ⟨rfl, rfl⟩

/-- Claim C1 (amended): every public operation among fan get/set, GPU
available/current/min/max frequency get, GPU range set, EMC get/set, CPU-id
discovery and per-CPU get/set — but not `get_gpu_current_usage`, which has
no privilege check — consults the privilege check before any other step
when invoked without elevated privilege: for every world it immediately
fails with the privilege-denied error (exception posture) or that posture's
failure value (boolean posture) and performs zero file-system writes. -/
theorem c1_privilege_gate (w : World) (speed : Nat) (cpu_id mn mx freq : Int)
    (gov : String) (hroot : running_as_root w = false) :
    JC.set_fan_speed w speed = (.error .privilegeDenied, []) ∧
    JC.get_fan_speed w = .error .privilegeDenied ∧
    JC.get_gpu_available_freqs w = .error .privilegeDenied ∧
    JC.set_gpu_freq_range w mn mx = (.error .privilegeDenied, []) ∧
    JC.get_gpu_cur_freq w = .error .privilegeDenied ∧
    JC.get_gpu_min_freq w = .error .privilegeDenied ∧
    JC.get_gpu_max_freq w = .error .privilegeDenied ∧
    JC.get_emc_available_freqs w = .error .privilegeDenied ∧
    JC.get_emc_freq w = .error .privilegeDenied ∧
    JC.set_emc_freq w freq = (.error .privilegeDenied, []) ∧
    JC.get_cpu_ids w = .error .privilegeDenied ∧
    JC.get_cpu_available_freqs w cpu_id = .error .privilegeDenied ∧
    JC.get_cpu_available_governors w cpu_id = .error .privilegeDenied ∧
    JC.get_cpu_governor w cpu_id = .error .privilegeDenied ∧
    JC.get_cpu_min_freq w cpu_id = .error .privilegeDenied ∧
    JC.get_cpu_max_freq w cpu_id = .error .privilegeDenied ∧
    JC.get_cpu_cur_freq w cpu_id = .error .privilegeDenied ∧
    JC.set_cpu_min_freq w cpu_id mn = (.error .privilegeDenied, []) ∧
    JC.set_cpu_max_freq w cpu_id mx = (.error .privilegeDenied, []) ∧
    JC.set_cpu_governor w cpu_id gov = (.error .privilegeDenied, []) ∧
    JCB.set_fan_speed w speed = (false, []) ∧
    JCB.get_fan_speed w = .ok 0 ∧
    JCB.get_gpu_available_freqs w = [] ∧
    JCB.set_gpu_freq_range w mn mx = (false, []) ∧
    JCB.get_emc_available_freq_range w = .ok (0, 0) ∧
    JCB.get_emc_freq w = .ok 0 ∧
    JCB.set_emc_freq w freq = (.ok false, []) ∧
    JCB.get_cpu_ids w = [] ∧
    JCB.get_cpu_available_freqs w cpu_id = [] ∧
    JCB.get_cpu_available_governors w cpu_id = [] ∧
    JCB.get_cpu_governor w cpu_id = "" ∧
    JCB.get_cpu_min_freq w cpu_id = .ok 0 ∧
    JCB.get_cpu_max_freq w cpu_id = .ok 0 ∧
    JCB.get_cpu_cur_freq w cpu_id = .ok 0 ∧
    JCB.set_cpu_min_freq w cpu_id mn = (false, []) ∧
    JCB.set_cpu_max_freq w cpu_id mx = (false, []) ∧
    JCB.set_cpu_governor w cpu_id gov = (false, []) := by
  simp [JC.set_fan_speed, JC.get_fan_speed, JC.get_gpu_available_freqs,
        JC.set_gpu_freq_range, JC.get_gpu_cur_freq, JC.get_gpu_min_freq,
        JC.get_gpu_max_freq, JC.get_emc_available_freqs, JC.get_emc_freq,
        JC.set_emc_freq, JC.get_cpu_ids, JC.get_cpu_available_freqs,
        JC.get_cpu_available_governors, JC.get_cpu_governor, JC.get_cpu_min_freq,
        JC.get_cpu_max_freq, JC.get_cpu_cur_freq, JC.readCpuFreq,
        JC.set_cpu_min_freq, JC.set_cpu_max_freq, JC.set_cpu_governor,
        JCB.set_fan_speed, JCB.get_fan_speed, JCB.get_gpu_available_freqs,
        JCB.set_gpu_freq_range, JCB.get_emc_available_freq_range, JCB.get_emc_freq,
        JCB.set_emc_freq, JCB.get_cpu_ids, JCB.get_cpu_available_freqs,
        JCB.get_cpu_available_governors, JCB.get_cpu_governor, JCB.get_cpu_min_freq,
        JCB.get_cpu_max_freq, JCB.get_cpu_cur_freq, JCB.readCpuFreq,
        JCB.set_cpu_min_freq, JCB.set_cpu_max_freq, JCB.set_cpu_governor, hroot]

/-- Witness for C1 at an unprivileged world with no files at all. -/
theorem c1_privilege_gate_witness :
    JC.set_fan_speed wNoRoot 0 = (.error .privilegeDenied, []) ∧
    JCB.set_cpu_governor wNoRoot 0 "performance" = (false, []) := by
  have h := c1_privilege_gate wNoRoot 0 0 0 0 0 "performance" rfl
  exact ⟨h.1, rfl⟩

/-- Claim C9: once the privilege and validation checks of the best-effort
setters `set_emc_freq`, `set_cpu_min_freq`, `set_cpu_max_freq` and
`set_cpu_governor` pass, they return true for every world — in particular
for worlds in which any or all of the subsequent file writes fail — because
the accumulated per-write success flag is not the returned value. -/
theorem c9_best_effort_returns_true (w : World) (cpu_id freq mnC mxC : Int)
    (gov : String) (lo hi : Int)
    (hroot : running_as_root w = true)
    (hE : JCB.get_emc_available_freq_range w = .ok (lo, hi))
    (hEin : (freq < lo || freq > hi) = false)
    (hfamE : JCB.get_soc_family w = "tegra186" ∨ JCB.get_soc_family w = "tegra210")
    (hCw : file_writable w (cpuPath cpu_id "scaling_min_freq") = true)
    (hCx : file_writable w (cpuPath cpu_id "scaling_max_freq") = true)
    (hCg : file_exists w (cpuPath cpu_id "scaling_governor") = true)
    (hCa : (JCB.get_cpu_available_freqs w cpu_id).length ≠ 0)
    (hmn : (JCB.get_cpu_available_freqs w cpu_id).contains mnC = true)
    (hmx : (JCB.get_cpu_available_freqs w cpu_id).contains mxC = true)
    (hgl : (JCB.get_cpu_available_governors w cpu_id).length ≠ 0)
    (hgv : (JCB.get_cpu_available_governors w cpu_id).contains gov = true) :
    (JCB.set_emc_freq w freq).1 = .ok true ∧
    (JCB.set_cpu_min_freq w cpu_id mnC).1 = true ∧
    (JCB.set_cpu_max_freq w cpu_id mxC).1 = true ∧
    (JCB.set_cpu_governor w cpu_id gov).1 = true := by
  refine ⟨?_, ?_, ?_, ?_⟩
  · rcases hfamE with h | h <;> simp [JCB.set_emc_freq, hroot, hE, hEin, h]
  · have h' : mnC ∈ JCB.get_cpu_available_freqs w cpu_id := by simpa using hmn
    simp [JCB.set_cpu_min_freq, hroot, hCw, hCa, h']
  · have h' : mxC ∈ JCB.get_cpu_available_freqs w cpu_id := by simpa using hmx
    simp [JCB.set_cpu_max_freq, hroot, hCx, hCa, h']
  · have h' : gov ∈ JCB.get_cpu_available_governors w cpu_id := by simpa using hgv
    simp [JCB.set_cpu_governor, hroot, hCg, hgl, h']

/-- Witness for C9 at a tegra210 world whose QoS file and EMC target files
are missing and whose governor file is not writable: the EMC and governor
setters perform zero successful writes yet report true. -/
theorem c9_best_effort_returns_true_witness :
    (JCB.set_emc_freq wBestEffort 500).1 = .ok true ∧
    (JCB.set_cpu_min_freq wBestEffort 0 100).1 = true ∧
    (JCB.set_cpu_max_freq wBestEffort 0 200).1 = true ∧
    (JCB.set_cpu_governor wBestEffort 0 "performance").1 = true ∧
    JCB.set_emc_freq wBestEffort 500 = (.ok true, []) ∧
    JCB.set_cpu_governor wBestEffort 0 "performance" = (true, []) := by
  have h := c9_best_effort_returns_true wBestEffort 0 500 100 200 "performance"
    100 900 rfl rfl rfl (Or.inr rfl) rfl rfl rfl (by decide) (by decide)
    (by decide) (by decide) (by decide)
  exact ⟨h.1, h.2.1, h.2.2.1, h.2.2.2, rfl, rfl⟩

/-- Witness for C10 at a primary id file holding a tegra186 name followed
by a newline. -/
theorem c10_trailing_newline_witness :
    JC.get_soc_family wNewline = .ok "tegra186\n" ∧
    JC.get_gpu_available_freqs wNewline = .error .unsupportedPlatform ∧
    JC.set_gpu_freq_range wNewline 0 0 = (.error .unsupportedPlatform, []) ∧
    JC.get_gpu_cur_freq wNewline = .error .unsupportedPlatform ∧
    JC.get_gpu_min_freq wNewline = .error .unsupportedPlatform ∧
    JC.get_gpu_max_freq wNewline = .error .unsupportedPlatform ∧
    JC.get_gpu_current_usage wNewline = .error .unsupportedPlatform ∧
    JC.get_emc_available_freqs wNewline = .error .unsupportedPlatform ∧
    JC.get_emc_freq wNewline = .error .unsupportedPlatform ∧
    JC.set_emc_freq wNewline 0 = (.error .unsupportedPlatform, []) :=
  c10_trailing_newline wNewline "tegra186\n" rfl rfl rfl

end JetsonClocks
